import Mathlib

/-!
Shallow embedding of `src/v3/main.py` (restreamer-automate), a small Python
utility that logs into a restreamer control server, schedules daily
start/stop commands and a 10-minute token refresh, and polls the console
for manual commands.

Modelling conventions:
* JSON scalar values are modelled by `JSONValue`; parsed JSON object bodies
  (the login response and the config file) are modelled directly as
  association lists `List (String × JSONValue)`, matching Python dicts.
  Composite JSON values (arrays, nested objects) are outside the modelled
  domain; no claim depends on them.
* Python truthiness of a JSON value is `truthy`; `dict.get` is `jsonLookup`.
* One HTTP exchange is summarised by `HttpOutcome`: either the request
  itself failed (`requests.exceptions.RequestException`) or a response with
  a status code and a body arrived.  `response.raise_for_status()` raises
  (an exception caught by the same `RequestException` handler) exactly when
  `400 ≤ status`; `response.json()` raises `json.JSONDecodeError` when the
  body is not valid JSON (`BodyParse.invalid`).
* Functions are total on this outcome space: every modelled failure is
  caught by the source's two `except` clauses, so no exception escapes.
  Each function also reports which log line(s) it printed, as abstract tags.
* Python's bare `exit()` raises `SystemExit(None)`, and falling off the end
  of the script returns normally: both terminate the process with exit
  status 0.  This is reflected in `mainStartup` / `processExitCode`.
-/

namespace Restreamer

/-- A scalar JSON value, as produced by `response.json()` / `json.load`. -/
inductive JSONValue where
  | null
  | bool (b : Bool)
  | num (n : Int)
  | str (s : String)
deriving DecidableEq, Repr

/-- Python truthiness of a JSON value: `None`, `False`, `0` and `""` are
falsy, everything else in the modelled domain is truthy. -/
def truthy : JSONValue → Bool
  | .null => false
  | .bool b => b
  | .num n => n != 0
  | .str s => s != ""

/-- `dict.get k`: the value stored under key `k`, or `none` if absent. -/
def jsonLookup (fields : List (String × JSONValue)) (k : String) : Option JSONValue :=
  (fields.find? (fun p => p.1 == k)).map (fun p => p.2)

/-- Truthiness of a `dict.get` result (`None` when the key is absent). -/
def truthyOpt : Option JSONValue → Bool
  | some v => truthy v
  | none => false

/-- Whether a JSON value is a non-empty string (the property claimed of
returned tokens). -/
def isNonEmptyString : JSONValue → Bool
  | .str s => s != ""
  | _ => false

/-- The body of an HTTP response: either not valid JSON (so
`response.json()` raises `json.JSONDecodeError`) or a parsed JSON object
given by its fields. -/
inductive BodyParse where
  | invalid
  | json (fields : List (String × JSONValue))
deriving DecidableEq, Repr

/-- The outcome of one HTTP exchange as seen by the caller of `requests`:
the request itself failed (network error, a `RequestException`), or a
response arrived with a status code and a body. -/
inductive HttpOutcome where
  | requestError
  | response (status : Nat) (body : BodyParse)
deriving DecidableEq, Repr

/-- Log lines printed by `get_access_token` / `refresh_access_token`,
as abstract tags (the interpolated exception text is elided). -/
inductive AuthLogLine where
  | tokenMissing      -- "Error: Access token not found in ... response."
  | refreshedOk       -- "Successfully refreshed access token." (refresh only)
  | requestFailed     -- "Error during login/token refresh: {e}" (text in source, not here)
  | jsonDecodeFailed  -- "Error: Could not decode JSON response ..."
deriving DecidableEq, Repr

/-- What an auth call produced: the Python return value (`None` modelled as
`none`) and the log lines printed. -/
structure AuthResult where
  token : Option JSONValue
  log : List AuthLogLine
deriving DecidableEq, Repr

/-- `get_access_token` (main.py lines 25–59): POSTs credentials to
`{server_address}/api/login`, calls `raise_for_status`, parses the body,
reads `data.get("access_token")` and returns it if truthy; every failure is
caught, logged and yields `None`.  The credentials only determine the
request, not how the response is handled, so the model is a function of the
server's `HttpOutcome`. -/
def get_access_token (o : HttpOutcome) : AuthResult :=
  match o with
  | .requestError => ⟨none, [.requestFailed]⟩
  | .response status body =>
    if 400 ≤ status then
      -- raise_for_status raised; caught by the RequestException handler
      ⟨none, [.requestFailed]⟩
    else
      match body with
      | .invalid => ⟨none, [.jsonDecodeFailed]⟩
      | .json fields =>
        match jsonLookup fields "access_token" with
        | some access_token =>
          if truthy access_token then ⟨some access_token, []⟩
          else ⟨none, [.tokenMissing]⟩
        | none => ⟨none, [.tokenMissing]⟩

/-- `refresh_access_token` (main.py lines 61–96): textually the same logic
as `get_access_token` — a fresh login, not a refresh-token grant — with a
success log line added and different failure message texts. -/
def refresh_access_token (o : HttpOutcome) : AuthResult :=
  match o with
  | .requestError => ⟨none, [.requestFailed]⟩
  | .response status body =>
    if 400 ≤ status then
      ⟨none, [.requestFailed]⟩
    else
      match body with
      | .invalid => ⟨none, [.jsonDecodeFailed]⟩
      | .json fields =>
        match jsonLookup fields "access_token" with
        | some access_token =>
          if truthy access_token then ⟨some access_token, [.refreshedOk]⟩
          else ⟨none, [.tokenMissing]⟩
        | none => ⟨none, [.tokenMissing]⟩

/-- An outbound HTTP request as assembled by the source before it is handed
to `requests`. -/
structure HttpRequest where
  method : String
  url : String
  headers : List (String × String)
  body : List (String × JSONValue)
deriving DecidableEq, Repr

/-- main.py lines 103–105: the process identifier placed in the command
URL, with the two template colons written percent-encoded in the source
literal and `_snapshot` appended for the snapshot variant. -/
def processIdentifier (process_id : String) (is_snapshot : Bool) : String :=
  let base := "restreamer-ui%3Aingest%3A" ++ process_id
  if is_snapshot then base ++ "_snapshot" else base

/-- main.py lines 103–113: the PUT request `send_restreamer_command`
assembles: URL, headers (including the bearer token) and JSON body. -/
def buildCommandRequest (server_address process_id authorization_token command : String)
    (is_snapshot : Bool) : HttpRequest :=
  { method := "PUT"
  , url := server_address ++ "/api/v3/process/"
      ++ processIdentifier process_id is_snapshot ++ "/command"
  , headers := [("Content-Type", "application/json"),
                ("Authorization", "Bearer " ++ authorization_token)]
  , body := [("command", JSONValue.str command)] }

/-- Log output of `send_restreamer_command`, as abstract tags. -/
inductive SendLog where
  | successMsg (respBody : List (String × JSONValue))
      -- "... command sent successfully ..." followed by the printed body
  | requestErrMsg  -- "Error sending command to process ...: {e}" (text in source, not here)
  | jsonErrMsg     -- "Error decoding JSON response."
deriving DecidableEq, Repr

/-- What one `send_restreamer_command` call did: whether an exception
escaped the function, what was logged, and the Python return value.  The
source has no `return` statement, so every path returns `None`. -/
structure SendCommandResult where
  raised : Bool
  log : SendLog
  retVal : Option JSONValue
deriving DecidableEq, Repr

/-- `send_restreamer_command` (main.py lines 98–120): builds the request,
issues it, calls `raise_for_status`, and prints either a success line with
the response body or an error line; `RequestException` and
`JSONDecodeError` are both caught, so nothing is raised and the function
returns `None` on every path. -/
def send_restreamer_command (server_address process_id authorization_token command : String)
    (is_snapshot : Bool) (o : HttpOutcome) : HttpRequest × SendCommandResult :=
  let req := buildCommandRequest server_address process_id authorization_token command is_snapshot
  let res : SendCommandResult :=
    match o with
    | .requestError => ⟨false, .requestErrMsg, none⟩
    | .response status body =>
      if 400 ≤ status then
        ⟨false, .requestErrMsg, none⟩
      else
        match body with
        | .invalid => ⟨false, .jsonErrMsg, none⟩
        | .json fields => ⟨false, .successMsg fields, none⟩
  (req, res)

/-- `connect_stream` (main.py lines 122–129): sends `start` to the primary
process, then `start` to the snapshot variant.  Python sequencing would
abort the second call only if an exception escaped the first, so the model
checks `raised`. -/
def connect_stream (server_address process_id authorization_token : String)
    (o1 o2 : HttpOutcome) : List (HttpRequest × SendCommandResult) :=
  let c1 := send_restreamer_command server_address process_id authorization_token "start" false o1
  if c1.2.raised then [c1]
  else [c1, send_restreamer_command server_address process_id authorization_token "start" true o2]

/-- `disconnect_stream` (main.py lines 131–138): sends `stop` to the
snapshot variant first, then `stop` to the primary process. -/
def disconnect_stream (server_address process_id authorization_token : String)
    (o1 o2 : HttpOutcome) : List (HttpRequest × SendCommandResult) :=
  let c1 := send_restreamer_command server_address process_id authorization_token "stop" true o1
  if c1.2.raised then [c1]
  else [c1, send_restreamer_command server_address process_id authorization_token "stop" false o2]

/-- A job registered with the `schedule` library (main.py lines 161–183). -/
inductive Job where
  | dailyConnect (t : JSONValue)
  | dailyDisconnect (t : JSONValue)
  | refreshEvery10min
deriving DecidableEq, Repr

/-- main.py lines 161–183: the jobs scheduled before the loop starts.  A
daily job is registered only when its time key is present and truthy
(`if connect_time:`); the 10-minute refresh is always registered. -/
def scheduledJobs (config : List (String × JSONValue)) : List Job :=
  (match jsonLookup config "connect_time" with
   | some t => if truthy t then [Job.dailyConnect t] else []
   | none => []) ++
  (match jsonLookup config "disconnect_time" with
   | some t => if truthy t then [Job.dailyDisconnect t] else []
   | none => []) ++
  [Job.refreshEvery10min]

/-- main.py line 149: `if server_address and username and password:` — the
required credential fields, checked by Python truthiness of `config.get`. -/
def missingCredentials (config : List (String × JSONValue)) : Bool :=
  !(truthyOpt (jsonLookup config "server_address")
    && truthyOpt (jsonLookup config "username")
    && truthyOpt (jsonLookup config "password"))

/-- How the `__main__` block ends its pre-loop phase: either the process
terminates before any job is scheduled (with the given exit status), or it
schedules its jobs and enters the polling loop holding
`config['authorization_token']`. -/
inductive MainOutcome where
  | exitBeforeScheduling (code : Nat)
  | entersLoop (jobs : List Job) (authorization_token : JSONValue)
deriving DecidableEq, Repr

/-- The `__main__` block up to the loop (main.py lines 140–185).
`cfg` is `load_config()`'s result: `none` when the file is absent or not
valid JSON, otherwise the parsed config object; `loginOutcome` is the
server's response to the initial login.  Python's bare `exit()` raises
`SystemExit(None)` and an `if config:` fall-through ends the script; both
terminate the process with exit status 0, hence every
`exitBeforeScheduling` carries code 0. -/
def mainStartup (cfg : Option (List (String × JSONValue))) (loginOutcome : HttpOutcome) :
    MainOutcome :=
  match cfg with
  | none => .exitBeforeScheduling 0      -- `if config:` is false; script falls off the end
  | some config =>
    if config.isEmpty then .exitBeforeScheduling 0   -- an empty object is falsy in Python
    else if missingCredentials config then
      .exitBeforeScheduling 0            -- "Missing login credentials" + exit()
    else
      match (get_access_token loginOutcome).token with
      | some access_token =>
        if truthy access_token then
          .entersLoop (scheduledJobs config) access_token
        else .exitBeforeScheduling 0     -- `if access_token:` falsy + exit()
      | none => .exitBeforeScheduling 0  -- "Could not retrieve access token" + exit()

/-- What one loop iteration does with the console input read on main.py
line 189 (after `.lower()`). -/
inductive LoopAction where
  | runConnect       -- 'c': connect_stream(config)
  | runDisconnect    -- 'd': disconnect_stream(config)
  | quitLoop         -- 'q': print "Exiting." and break
  | invalidInputMsg  -- other non-empty input: print the invalid-input error
  | noAction         -- empty input: `elif user_input:` is falsy, nothing printed
deriving DecidableEq, Repr

/-- Python `str.lower()`, modelled character-wise; the console commands are
ASCII, where per-character lowering coincides with Python's. -/
def pyLower (s : String) : String := ⟨s.data.map Char.toLower⟩

/-- main.py lines 189–199: dispatch on the lowered console input. -/
def loopDispatch (raw : String) : LoopAction :=
  let user_input := pyLower raw
  if user_input = "c" then .runConnect
  else if user_input = "d" then .runDisconnect
  else if user_input = "q" then .quitLoop
  else if user_input ≠ "" then .invalidInputMsg
  else .noAction

/-- The three phases of one loop iteration, in source order
(main.py lines 185–189). -/
inductive LoopPhase where
  | runPendingJobs   -- schedule.run_pending()
  | sleepOneSecond   -- time.sleep(1)
  | readUserInput    -- input(...)
deriving DecidableEq, Repr

/-- main.py lines 185–189: each iteration runs due jobs, sleeps one second,
then performs a single blocking console read. -/
def iterationPhases : List LoopPhase :=
  [LoopPhase.runPendingJobs, LoopPhase.sleepOneSecond, LoopPhase.readUserInput]

/-- Whether the `while True` loop exits (`break`) while consuming the given
console inputs: only a `quitLoop` dispatch leaves the loop, every other
action continues with the next iteration. -/
def loopQuit : List String → Bool
  | [] => false
  | i :: rest => if loopDispatch i = LoopAction.quitLoop then true else loopQuit rest

/-- Exit status of the whole process, when it terminates on the given
inputs: a pre-loop exit keeps its code, and leaving the loop via `break`
falls off the script's end, which is exit status 0.  `none` means the
process is still looping after consuming all inputs. -/
def processExitCode (cfg : Option (List (String × JSONValue))) (loginOutcome : HttpOutcome)
    (inputs : List String) : Option Nat :=
  match mainStartup cfg loginOutcome with
  | .exitBeforeScheduling code => some code
  | .entersLoop _ _ => if loopQuit inputs then some 0 else none

/-- A post-startup event in a run: the 10-minute refresh job fires (with
the server's outcome for its login request), or `connect_stream` /
`disconnect_stream` runs — scheduled or manual, both read the same
`config` dict (with outcomes for its two command requests). -/
inductive RunEvent where
  | scheduledRefresh (o : HttpOutcome)
  | streamConnect (o1 o2 : HttpOutcome)
  | streamDisconnect (o1 o2 : HttpOutcome)
deriving DecidableEq, Repr

/-- How `config['authorization_token']` evolves across one event.  The
`schedule` library invokes the registered `refresh_access_token` and
discards any return value other than its cancellation sentinel; no code in
main.py reassigns `config['authorization_token']` after line 152, so the
token state is unchanged by every event. -/
def tokenAfterEvent (authorization_token : String) (e : RunEvent) : String :=
  match e with
  | .scheduledRefresh o =>
      let _discarded := refresh_access_token o
      authorization_token
  | .streamConnect _ _ => authorization_token
  | .streamDisconnect _ _ => authorization_token

/-- The token state after a sequence of events. -/
def tokenAfterEvents (authorization_token : String) (es : List RunEvent) : String :=
  es.foldl tokenAfterEvent authorization_token

/-- The outbound command requests one event issues, given the current token
state (the refresh job's login POST is not a command request). -/
def eventRequests (server_address process_id authorization_token : String) :
    RunEvent → List HttpRequest
  | .scheduledRefresh _ => []
  | .streamConnect o1 o2 =>
      (connect_stream server_address process_id authorization_token o1 o2).map Prod.fst
  | .streamDisconnect o1 o2 =>
      (disconnect_stream server_address process_id authorization_token o1 o2).map Prod.fst

/-- All outbound command requests of a run, threading the token state. -/
def runRequests (server_address process_id authorization_token : String) :
    List RunEvent → List HttpRequest
  | [] => []
  | e :: es =>
      eventRequests server_address process_id authorization_token e
        ++ runRequests server_address process_id (tokenAfterEvent authorization_token e) es

/-- Percent-encoding of every colon in a character list, from the spec's
words "process identifier is restreamer-ui:ingest:{process_id} (colon
percent-encoded)"; used only to compare against the source's literal. -/
def encodeColonsList : List Char → List Char
  | [] => []
  | c :: cs => (if c = ':' then ['%', '3', 'A'] else [c]) ++ encodeColonsList cs

/-- String form of `encodeColonsList`. -/
def encodeColons (s : String) : String := ⟨encodeColonsList s.data⟩

/-! ## Helper lemmas -/

/-- Both `except` clauses of `send_restreamer_command` catch: no exception
escapes on any modelled outcome. -/
theorem send_restreamer_command_raised_false
    (server_address process_id authorization_token command : String)
    (is_snapshot : Bool) (o : HttpOutcome) :
    (send_restreamer_command server_address process_id authorization_token command
        is_snapshot o).2.raised = false := by
  cases o with
  | requestError => rfl
  | response status body =>
    simp only [send_restreamer_command]
    split
    · rfl
    · cases body <;> rfl

/-- `encodeColonsList` distributes over list append. -/
theorem encodeColonsList_append (xs ys : List Char) :
    encodeColonsList (xs ++ ys) = encodeColonsList xs ++ encodeColonsList ys := by
  induction xs with
  | nil => rfl
  | cons c cs ih => simp [encodeColonsList, ih]

/-- `encodeColonsList` fixes a colon-free list. -/
theorem encodeColonsList_of_no_colon (xs : List Char) (h : ':' ∉ xs) :
    encodeColonsList xs = xs := by
  induction xs with
  | nil => rfl
  | cons c cs ih =>
    simp only [List.mem_cons, not_or] at h
    simp [encodeColonsList, Ne.symm h.1, ih h.2]

/-- `refresh_access_token` computes the same return value as
`get_access_token` on every outcome (they differ only in logs). -/
theorem auth_token_eq (o : HttpOutcome) :
    (refresh_access_token o).token = (get_access_token o).token := by
  cases o with
  | requestError => rfl
  | response status body =>
    by_cases hs : 400 ≤ status
    · simp [refresh_access_token, get_access_token, hs]
    · cases body with
      | invalid => simp [refresh_access_token, get_access_token, hs]
      | json fields =>
        cases hl : jsonLookup fields "access_token" with
        | none => simp [refresh_access_token, get_access_token, hs, hl]
        | some v =>
          by_cases ht : truthy v = true <;>
            simp [refresh_access_token, get_access_token, hs, hl, ht]

/-- A token returned by `get_access_token` passed the `if access_token:`
truthiness gate. -/
theorem get_access_token_token_truthy (o : HttpOutcome) (v : JSONValue)
    (h : (get_access_token o).token = some v) : truthy v = true := by
  cases o with
  | requestError => simp [get_access_token] at h
  | response status body =>
    by_cases hs : 400 ≤ status
    · simp [get_access_token, hs] at h
    · cases body with
      | invalid => simp [get_access_token, hs] at h
      | json fields =>
        cases hl : jsonLookup fields "access_token" with
        | none => simp [get_access_token, hs, hl] at h
        | some w =>
          by_cases ht : truthy w = true
          · simp only [get_access_token, hs, if_false, hl, ht, if_true] at h
            simp only [Option.some.injEq] at h
            exact h ▸ ht
          · simp [get_access_token, hs, hl, ht] at h

/-- `connect_stream` always issues the primary-start and snapshot-start
requests, in that order, whatever the two call outcomes are. -/
theorem connect_stream_requests
    (server_address process_id authorization_token : String) (o1 o2 : HttpOutcome) :
    (connect_stream server_address process_id authorization_token o1 o2).map Prod.fst
      = [ buildCommandRequest server_address process_id authorization_token "start" false
        , buildCommandRequest server_address process_id authorization_token "start" true ] := by
  simp only [connect_stream]
  rw [send_restreamer_command_raised_false]
  simp [send_restreamer_command]

/-- `disconnect_stream` always issues the snapshot-stop and primary-stop
requests, in that order, whatever the two call outcomes are. -/
theorem disconnect_stream_requests
    (server_address process_id authorization_token : String) (o1 o2 : HttpOutcome) :
    (disconnect_stream server_address process_id authorization_token o1 o2).map Prod.fst
      = [ buildCommandRequest server_address process_id authorization_token "stop" true
        , buildCommandRequest server_address process_id authorization_token "stop" false ] := by
  simp only [disconnect_stream]
  rw [send_restreamer_command_raised_false]
  simp [send_restreamer_command]

/-- The spec's colon-encoded template applied to a colon-free process id
and suffix equals the source's hard-coded literal. -/
theorem encodeColons_template (pid suffix : String)
    (hpid : ':' ∉ pid.data) (hsuf : ':' ∉ suffix.data) :
    encodeColons ("restreamer-ui:ingest:" ++ pid ++ suffix)
      = "restreamer-ui%3Aingest%3A" ++ pid ++ suffix := by
  have hpre : encodeColonsList "restreamer-ui:ingest:".data
      = "restreamer-ui%3Aingest%3A".data := by decide
  apply String.ext
  show encodeColonsList ("restreamer-ui:ingest:" ++ pid ++ suffix).data
      = ("restreamer-ui%3Aingest%3A" ++ pid ++ suffix).data
  simp only [String.data_append, encodeColonsList_append,
    encodeColonsList_of_no_colon pid.data hpid,
    encodeColonsList_of_no_colon suffix.data hsuf, hpre]

/-- The loop exits exactly when some consumed input dispatches to quit. -/
theorem loopQuit_iff (inputs : List String) :
    loopQuit inputs = true ↔ ∃ i, i ∈ inputs ∧ loopDispatch i = LoopAction.quitLoop := by
  induction inputs with
  | nil => simp [loopQuit]
  | cons i rest ih =>
    simp only [loopQuit]
    split
    · simp_all
    · simp only [ih, List.mem_cons]
      constructor
      · rintro ⟨j, hj, hq⟩
        exact ⟨j, Or.inr hj, hq⟩
      · rintro ⟨j, hj | hj, hq⟩
        · subst hj; simp_all
        · exact ⟨j, hj, hq⟩

/-! ## Claim theorems -/

/-- C2: `refresh_access_token` is functionally identical to
`get_access_token`: for every server outcome of the credential exchange it
returns exactly the same Python value (the same token on success, `None` on
failure); the two differ only in the log lines they print. -/
theorem C2_refresh_identical_to_login (o : HttpOutcome) :
    (refresh_access_token o).token = (get_access_token o).token :=
  auth_token_eq o

/-- C4: one `connect_stream` invocation issues exactly two outbound command
calls, first `start` to the primary process, then `start` to the snapshot
variant — for every pair of call outcomes, so a failure of the first call
(network error, non-2xx status, malformed body) never prevents the second. -/
theorem C4_connect_stream_two_commands
    (server_address process_id authorization_token : String) (o1 o2 : HttpOutcome) :
    (connect_stream server_address process_id authorization_token o1 o2).map Prod.fst
      = [ buildCommandRequest server_address process_id authorization_token "start" false
        , buildCommandRequest server_address process_id authorization_token "start" true ] :=
  connect_stream_requests server_address process_id authorization_token o1 o2

/-- C5: one `disconnect_stream` invocation issues exactly two outbound
command calls, first `stop` to the snapshot variant, then `stop` to the
primary process (the mirror order of `connect_stream`) — for every pair of
call outcomes, so a failure of the first call never prevents the second. -/
theorem C5_disconnect_stream_two_commands
    (server_address process_id authorization_token : String) (o1 o2 : HttpOutcome) :
    (disconnect_stream server_address process_id authorization_token o1 o2).map Prod.fst
      = [ buildCommandRequest server_address process_id authorization_token "stop" true
        , buildCommandRequest server_address process_id authorization_token "stop" false ] :=
  disconnect_stream_requests server_address process_id authorization_token o1 o2

/-- C1: the token-staleness bug, evaluated on a concrete run.  The initial
login stored token `T0`; the scheduled 10-minute refresh then succeeded and
returned the new token `T1` — but the `schedule` library discards the
return value and nothing reassigns `config['authorization_token']`, so a
subsequent `connect_stream` still sends both commands with
`Authorization: Bearer T0`, not the most recently obtained token `T1`. -/
theorem C1_refresh_result_discarded :
    (refresh_access_token
        (HttpOutcome.response 200 (BodyParse.json [("access_token", JSONValue.str "T1")]))).token
      = some (JSONValue.str "T1") ∧
    tokenAfterEvents "T0"
        [RunEvent.scheduledRefresh
            (HttpOutcome.response 200 (BodyParse.json [("access_token", JSONValue.str "T1")]))]
      = "T0" ∧
    runRequests "http://h" "42" "T0"
        [ RunEvent.scheduledRefresh
            (HttpOutcome.response 200 (BodyParse.json [("access_token", JSONValue.str "T1")]))
        , RunEvent.streamConnect HttpOutcome.requestError HttpOutcome.requestError ]
      = [ buildCommandRequest "http://h" "42" "T0" "start" false
        , buildCommandRequest "http://h" "42" "T0" "start" true ] ∧
    ("Authorization", "Bearer " ++ "T0")
      ∈ (buildCommandRequest "http://h" "42" "T0" "start" false).headers ∧
    "T0" ≠ "T1" := by
  refine ⟨rfl, rfl, ?_, by simp [buildCommandRequest], by decide⟩
  show eventRequests "http://h" "42" "T0"
        (RunEvent.scheduledRefresh _) ++ _ = _
  simp only [runRequests, eventRequests, tokenAfterEvent, List.nil_append, List.append_nil]
  rw [connect_stream_requests]

/-- C3 counterexample: with the configuration file absent (`load_config`
yields `None`), the process does exit before any job is scheduled, but with
exit status 0 — Python's `if config:` simply falls through to the end of
the script — contradicting the claimed non-zero exit status. -/
theorem C3_counterexample_config_absent_exit_zero :
    mainStartup none HttpOutcome.requestError = MainOutcome.exitBeforeScheduling 0 := rfl

/-- C3 (amended): whenever the configuration file is absent, required
credential fields are missing, or the initial login fails, the process
exits before any job is scheduled — with exit status 0, since Python's bare
`exit()` and falling off the script both terminate with status 0; and
whenever the operator enters 'q', the process exits cleanly with exit
code 0. -/
theorem C3_amended_exit_statuses (cfg : Option (List (String × JSONValue)))
    (config : List (String × JSONValue)) (loginOutcome : HttpOutcome) (inputs : List String) :
    (mainStartup none loginOutcome = MainOutcome.exitBeforeScheduling 0) ∧
    (missingCredentials config = true →
        mainStartup (some config) loginOutcome = MainOutcome.exitBeforeScheduling 0) ∧
    ((get_access_token loginOutcome).token = none →
        mainStartup (some config) loginOutcome = MainOutcome.exitBeforeScheduling 0) ∧
    (∀ jobs tok, mainStartup cfg loginOutcome = MainOutcome.entersLoop jobs tok →
        loopQuit inputs = true → processExitCode cfg loginOutcome inputs = some 0) := by
  refine ⟨rfl, ?_, ?_, ?_⟩
  · intro h
    by_cases he : config.isEmpty <;> simp [mainStartup, he, h]
  · intro h
    by_cases he : config.isEmpty
    · simp [mainStartup, he]
    · by_cases hm : missingCredentials config = true <;> simp [mainStartup, he, hm, h]
  · intro jobs tok h hq
    simp [processExitCode, h, hq]

/-- C3 witness: the spec's example scenario — a config with credentials
only, a login returning token "abc", console input `q` — terminates the
process with exit code 0. -/
theorem C3_amended_exit_statuses_witness :
    processExitCode
        (some [("server_address", JSONValue.str "http://h"), ("username", JSONValue.str "u"),
               ("password", JSONValue.str "p")])
        (HttpOutcome.response 200 (BodyParse.json [("access_token", JSONValue.str "abc")]))
        ["q"] = some 0 :=
  (C3_amended_exit_statuses
      (some [("server_address", JSONValue.str "http://h"), ("username", JSONValue.str "u"),
             ("password", JSONValue.str "p")])
      []
      (HttpOutcome.response 200 (BodyParse.json [("access_token", JSONValue.str "abc")]))
      ["q"]).2.2.2
    [Job.refreshEvery10min] (JSONValue.str "abc") (by decide) (by decide)

/-- C6: on a successful (2xx) credential exchange whose JSON body maps
`access_token` to a non-empty string `T`, `get_access_token` returns
exactly `T`; if the field is absent it returns `None` and logs the
missing-token message; a network failure or a non-JSON body likewise
yields `None` (every modelled failure is caught — the function is total,
so no exception reaches the caller). -/
theorem C6_get_access_token_cases (status : Nat) (fields : List (String × JSONValue))
    (T : String) (hsuccess : 200 ≤ status ∧ status < 300) :
    (jsonLookup fields "access_token" = some (JSONValue.str T) → T ≠ "" →
        get_access_token (HttpOutcome.response status (BodyParse.json fields))
          = ⟨some (JSONValue.str T), []⟩) ∧
    (jsonLookup fields "access_token" = none →
        get_access_token (HttpOutcome.response status (BodyParse.json fields))
          = ⟨none, [AuthLogLine.tokenMissing]⟩) ∧
    (get_access_token HttpOutcome.requestError = ⟨none, [AuthLogLine.requestFailed]⟩) ∧
    (get_access_token (HttpOutcome.response status BodyParse.invalid)
        = ⟨none, [AuthLogLine.jsonDecodeFailed]⟩) := by
  have h400 : ¬ 400 ≤ status := by omega
  refine ⟨?_, ?_, rfl, by simp [get_access_token, h400]⟩
  · intro hl hT
    simp [get_access_token, h400, hl, truthy, hT]
  · intro hl
    simp [get_access_token, h400, hl]

/-- C6 witness: the spec's example — a 200 response with body
`access_token = "T"` yields exactly the token `"T"` and no log line. -/
theorem C6_get_access_token_cases_witness :
    get_access_token (HttpOutcome.response 200 (BodyParse.json [("access_token", JSONValue.str "T")]))
      = ⟨some (JSONValue.str "T"), []⟩ :=
  (C6_get_access_token_cases 200 [("access_token", JSONValue.str "T")] "T"
      (by decide)).1 (by decide) (by decide)

/-- C7 counterexample: the claim fails on two concrete non-2xx inputs.
First, `send_restreamer_command` has no `return` statement, so its Python
return value is `None` on an HTTP-500 call and on a successful call alike —
the caller receives no failure indicator distinguishable from success.
Second, on a 304 response (non-2xx, but below `raise_for_status`'s 4xx/5xx
range) nothing is caught or logged as an error: line 115's success line is
printed instead. -/
theorem C7_counterexample_no_failure_indicator :
    (send_restreamer_command "http://h" "42" "tok" "start" false
        (HttpOutcome.response 500 BodyParse.invalid)).2.retVal = none ∧
    (send_restreamer_command "http://h" "42" "tok" "start" false
        (HttpOutcome.response 200 (BodyParse.json []))).2.retVal = none ∧
    (send_restreamer_command "http://h" "42" "tok" "start" false
        (HttpOutcome.response 500 BodyParse.invalid)).2.retVal
      = (send_restreamer_command "http://h" "42" "tok" "start" false
          (HttpOutcome.response 200 (BodyParse.json []))).2.retVal ∧
    (send_restreamer_command "http://h" "42" "tok" "start" false
        (HttpOutcome.response 304 (BodyParse.json []))).2.log = SendLog.successMsg [] ∧
    SendLog.successMsg [] ≠ SendLog.requestErrMsg :=
  ⟨rfl, rfl, rfl, rfl, by decide⟩

/-- C7 (amended): a dispatcher call against an endpoint returning an HTTP
error status — 4xx or 5xx, e.g. 500, the range where `raise_for_status`
raises — is caught and logged with a failure log line, and the function
returns normally without raising past the caller; the same holds for
network errors and malformed response bodies.  A 3xx response, although
non-2xx, does not raise and is reported with the success line, exactly
like a 2xx response.  The return value is always `None` on every path —
success and failure are distinguished only in the log, not in a returned
failure indicator. -/
theorem C7_amended_errors_caught_and_logged
    (server_address process_id authorization_token command : String) (is_snapshot : Bool)
    (status : Nat) (body : BodyParse) (fields : List (String × JSONValue)) :
    (400 ≤ status →
        (send_restreamer_command server_address process_id authorization_token command
            is_snapshot (HttpOutcome.response status body)).2
          = ⟨false, SendLog.requestErrMsg, none⟩) ∧
    ((send_restreamer_command server_address process_id authorization_token command
        is_snapshot HttpOutcome.requestError).2 = ⟨false, SendLog.requestErrMsg, none⟩) ∧
    (status < 400 →
        (send_restreamer_command server_address process_id authorization_token command
            is_snapshot (HttpOutcome.response status BodyParse.invalid)).2
          = ⟨false, SendLog.jsonErrMsg, none⟩) ∧
    (status < 400 →
        (send_restreamer_command server_address process_id authorization_token command
            is_snapshot (HttpOutcome.response status (BodyParse.json fields))).2
          = ⟨false, SendLog.successMsg fields, none⟩) ∧
    (∀ o : HttpOutcome,
        (send_restreamer_command server_address process_id authorization_token command
            is_snapshot o).2.retVal = none) := by
  refine ⟨?_, rfl, ?_, ?_, ?_⟩
  · intro h
    simp [send_restreamer_command, h]
  · intro h
    have h400 : ¬ 400 ≤ status := by omega
    simp [send_restreamer_command, h400]
  · intro h
    have h400 : ¬ 400 ≤ status := by omega
    simp [send_restreamer_command, h400]
  · intro o
    cases o with
    | requestError => rfl
    | response s b =>
      by_cases h : 400 ≤ s
      · simp [send_restreamer_command, h]
      · cases b <;> simp [send_restreamer_command, h]

/-- C7 witness: an HTTP-500 response is caught and logged as a request
error with return value `None`, while a 304 response (non-2xx but not an
error status) is reported with the success line. -/
theorem C7_amended_witness :
    (send_restreamer_command "http://h" "42" "tok" "start" false
        (HttpOutcome.response 500 (BodyParse.json []))).2
      = ⟨false, SendLog.requestErrMsg, none⟩ ∧
    (send_restreamer_command "http://h" "42" "tok" "start" false
        (HttpOutcome.response 304 (BodyParse.json []))).2
      = ⟨false, SendLog.successMsg [], none⟩ :=
  ⟨(C7_amended_errors_caught_and_logged "http://h" "42" "tok" "start" false 500
      (BodyParse.json []) []).1 (by decide),
   (C7_amended_errors_caught_and_logged "http://h" "42" "tok" "start" false 304
      (BodyParse.json []) []).2.2.2.1 (by decide)⟩

/-- C8: `send_restreamer_command` issues a PUT to
`{server_address}/api/v3/process/{encoded}/command` with an
`Authorization: Bearer {token}` header and body `command = verb`, where
the encoded identifier is `restreamer-ui:ingest:{process_id}` with the
template colons percent-encoded, and `_snapshot` appended exactly when the
snapshot variant is addressed (stated for colon-free process ids, where
"each colon" means the two template colons, as the source's literal
hard-codes). -/
theorem C8_command_request_shape
    (server_address process_id authorization_token command : String) (is_snapshot : Bool)
    (hpid : ':' ∉ process_id.data) :
    (buildCommandRequest server_address process_id authorization_token command
        is_snapshot).method = "PUT" ∧
    (buildCommandRequest server_address process_id authorization_token command
        is_snapshot).url
      = server_address ++ "/api/v3/process/"
        ++ encodeColons ("restreamer-ui:ingest:" ++ process_id
              ++ (if is_snapshot then "_snapshot" else ""))
        ++ "/command" ∧
    ("Authorization", "Bearer " ++ authorization_token)
      ∈ (buildCommandRequest server_address process_id authorization_token command
          is_snapshot).headers ∧
    (buildCommandRequest server_address process_id authorization_token command
        is_snapshot).body = [("command", JSONValue.str command)] := by
  refine ⟨rfl, ?_, by simp [buildCommandRequest], rfl⟩
  have hsnap : ':' ∉ (if is_snapshot then "_snapshot" else "").data := by
    cases is_snapshot <;> decide
  rw [encodeColons_template process_id _ hpid hsnap]
  cases is_snapshot <;>
    simp [buildCommandRequest, processIdentifier, String.append_empty, String.append_assoc]

/-- C8 witness: the snapshot-variant request for process id "42". -/
theorem C8_command_request_shape_witness :
    (buildCommandRequest "http://h" "42" "tok" "start" true).url
      = "http://h" ++ "/api/v3/process/"
        ++ encodeColons ("restreamer-ui:ingest:" ++ "42" ++ "_snapshot") ++ "/command" :=
  (C8_command_request_shape "http://h" "42" "tok" "start" true (by decide)).2.1

/-- C9 counterexample: empty console input is falsy, so the
`elif user_input:` branch is skipped and no error message is printed —
contradicting the claim that any non-`c`/`d`/`q` input produces an error
message. -/
theorem C9_counterexample_empty_input_no_error :
    loopDispatch "" = LoopAction.noAction
      ∧ LoopAction.noAction ≠ LoopAction.invalidInputMsg :=
  ⟨rfl, by decide⟩

/-- C9 (amended): each loop iteration first runs due scheduled jobs, then
sleeps one second, then performs a single blocking console read; input 'c'
invokes connect_stream immediately, 'd' invokes disconnect_stream, 'q'
terminates the loop, any other non-empty input produces an error message
and a re-prompt on the next iteration, while empty input re-prompts
silently without an error message; the loop terminates only on the quit
command. -/
theorem C9_amended_loop_behavior (s : String) (inputs : List String) :
    iterationPhases
      = [LoopPhase.runPendingJobs, LoopPhase.sleepOneSecond, LoopPhase.readUserInput] ∧
    loopDispatch "c" = LoopAction.runConnect ∧
    loopDispatch "d" = LoopAction.runDisconnect ∧
    loopDispatch "q" = LoopAction.quitLoop ∧
    (pyLower s ≠ "c" → pyLower s ≠ "d" → pyLower s ≠ "q" → pyLower s ≠ "" →
        loopDispatch s = LoopAction.invalidInputMsg) ∧
    loopDispatch "" = LoopAction.noAction ∧
    (loopQuit inputs = true ↔ ∃ i, i ∈ inputs ∧ loopDispatch i = LoopAction.quitLoop) := by
  refine ⟨rfl, rfl, rfl, rfl, ?_, rfl, loopQuit_iff inputs⟩
  intro hc hd hq he
  simp [loopDispatch, hc, hd, hq, he]

/-- C9 witness: the unrecognised input "x" produces the invalid-input
error, and a run whose console inputs are just "q" leaves the loop. -/
theorem C9_amended_loop_behavior_witness :
    loopDispatch "x" = LoopAction.invalidInputMsg ∧ loopQuit ["q"] = true := by
  constructor
  · exact (C9_amended_loop_behavior "x" ["q"]).2.2.2.2.1
      (by decide) (by decide) (by decide) (by decide)
  · exact (C9_amended_loop_behavior "x" ["q"]).2.2.2.2.2.2.mpr
      ⟨"q", by simp, by decide⟩

/-- C10 counterexample: a successful response whose body maps
`access_token` to the number 1 — a truthy but non-string JSON value — is
returned as-is by `get_access_token`, so the returned token is not a
non-empty string as claimed. -/
theorem C10_counterexample_nonstring_token :
    (get_access_token (HttpOutcome.response 200
        (BodyParse.json [("access_token", JSONValue.num 1)]))).token
      = some (JSONValue.num 1) ∧
    isNonEmptyString (JSONValue.num 1) = false :=
  ⟨rfl, rfl⟩

/-- C10 (amended): whenever `get_access_token` or `refresh_access_token`
returns a token value, that value is truthy — in particular it is never
the empty string; a successful response whose body maps `access_token` to
the empty string (or any falsy value) is treated as the absence case,
logged, and yields no token.  (The value returned is whatever JSON value
the body held, so a truthy non-string value is returned as-is.) -/
theorem C10_amended_returned_tokens_truthy (o : HttpOutcome) (v : JSONValue)
    (status : Nat) (fields : List (String × JSONValue)) :
    ((get_access_token o).token = some v → truthy v = true) ∧
    ((refresh_access_token o).token = some v → truthy v = true) ∧
    ((get_access_token o).token = some v → v ≠ JSONValue.str "") ∧
    (status < 400 → jsonLookup fields "access_token" = some (JSONValue.str "") →
        get_access_token (HttpOutcome.response status (BodyParse.json fields))
          = ⟨none, [AuthLogLine.tokenMissing]⟩ ∧
        refresh_access_token (HttpOutcome.response status (BodyParse.json fields))
          = ⟨none, [AuthLogLine.tokenMissing]⟩) ∧
    (status < 400 → truthy v = false → jsonLookup fields "access_token" = some v →
        (get_access_token (HttpOutcome.response status (BodyParse.json fields))).token
          = none) := by
  refine ⟨get_access_token_token_truthy o v, ?_, ?_, ?_, ?_⟩
  · intro h
    exact get_access_token_token_truthy o v (auth_token_eq o ▸ h)
  · intro h hv
    have := get_access_token_token_truthy o v h
    rw [hv] at this
    simp [truthy] at this
  · intro hs hl
    have h400 : ¬ 400 ≤ status := by omega
    constructor <;>
      simp [get_access_token, refresh_access_token, h400, hl, truthy]
  · intro hs hv hl
    have h400 : ¬ 400 ≤ status := by omega
    simp [get_access_token, h400, hl, hv]

/-- C10 witness: a 200 response with `access_token = ""` yields no token
and the missing-token log line, for both auth operations. -/
theorem C10_amended_returned_tokens_truthy_witness :
    get_access_token (HttpOutcome.response 200
        (BodyParse.json [("access_token", JSONValue.str "")]))
      = ⟨none, [AuthLogLine.tokenMissing]⟩ ∧
    refresh_access_token (HttpOutcome.response 200
        (BodyParse.json [("access_token", JSONValue.str "")]))
      = ⟨none, [AuthLogLine.tokenMissing]⟩ :=
  (C10_amended_returned_tokens_truthy HttpOutcome.requestError JSONValue.null 200
      [("access_token", JSONValue.str "")]).2.2.2.1 (by decide) (by decide)

end Restreamer
